import Mathlib

/-!
Shallow embedding of the LinuxPrinterService repository (src/server.js and
src/lib/receiptFormatter.js), together with theorems settling the frozen
claims about the print-job lifecycle manager, the queue drain pass, the
receipt renderer and the HTTP surface.

Conventions of the embedding:
* JavaScript timestamps (`Date.now()`, ISO strings) are modelled as `Nat`
  instants supplied by the environment.
* The spooler adapter (`printerManager.print`) and the printer snapshot
  (`printerManager.getAvailablePrinters`) are collaborators; their results
  are supplied by a `PrintEnv` value per call, one per drain attempt.
* JavaScript string truthiness (empty string is falsy) is modelled
  explicitly where the source relies on it.
* Monetary JS numbers are modelled as `Int`; `toFixed(0)` on an integral
  amount is integer printing.
-/

namespace PrinterService

/-- PrinterInfo as consumed by server.js: identity, status string
(`"online"` or anything else), and the default flag. -/
structure PrinterInfo where
  name : String
  status : String
  isDefault : Bool
  deriving DecidableEq, Repr

/-- One line item of a sales receipt (server.js `validateReceiptData`,
receiptFormatter `formatSalesReceipt`). -/
structure ReceiptItem where
  name : String
  quantity : Int
  price : Int
  total : Int
  deriving DecidableEq, Repr

/-- Receipt documents are duck-typed JS objects; this structure is the
union of every field the five formatter variants and the validator read.
Fields checked for truthiness in the source are plain `String`/`Int` here,
with `""`/`0` playing the role of a falsy value, matching JS semantics for
strings and numbers. -/
structure Receipt where
  orderNumber : String
  date : String
  cashier : String
  items : List ReceiptItem
  subtotal : Int
  tax : Int
  total : Int
  paymentMethod : String
  tendered : Int
  change : Int
  transferReference : String
  transferId : String
  shiftInfo : String
  senderName : String
  receiverName : String
  amount : Int
  notes : String
  shiftId : String
  shiftType : String
  shiftDate : String
  startTime : String
  endTime : String
  cashierName : String
  startingCash : Int
  shiftSales : Int
  endingCashExpected : Int
  endingCashCounted : Int
  variance : Int
  transfersOut : Int
  handoffId : String
  handoffDate : String
  outgoingCashier : String
  incomingCashier : String
  handoffAmount : Int
  verifiedAmount : Int
  status : String
  cashExpenseId : String
  expenseId : String
  category : String
  description : String
  deriving DecidableEq, Repr

/-- QueuedJob: `{ receipt, printerName, timestamp: Date.now() }` as pushed
by `processPrintJob` (server.js line 467). -/
structure QueuedJob where
  receipt : Receipt
  printerName : Option String
  timestamp : Nat
  deriving DecidableEq, Repr

/-- Mutable fields of the `POSPrinterService` instance that the job
lifecycle manager reads or writes (constructor, server.js lines 46-50). -/
structure ServiceState where
  printQueue : List QueuedJob
  maxQueueSize : Nat
  isProcessingQueue : Bool
  lastPrintTime : Option Nat
  startTime : Nat
  deriving DecidableEq, Repr

deriving instance DecidableEq for Except

/-- Collaborator results for one `processPrintJob` call: the printer
snapshot returned by `printerManager.getAvailablePrinters()`, the result of
`printerManager.print` (`Except.error e` models the promise rejecting with
message `e`), and the current instant. -/
structure PrintEnv where
  printers : List PrinterInfo
  submit : Except String Unit
  now : Nat
  deriving DecidableEq, Repr

/-- Response object built by `processPrintJob`.  The queued response
(server.js lines 470-475) has `success: false, queued: true` and no
timestamp; the success response (lines 501-506) has `success: true` and the
new `lastPrintTime`. -/
structure PrintResponse where
  success : Bool
  message : String
  printerId : String
  queued : Bool
  timestamp : Option Nat
  deriving DecidableEq, Repr

/-- JS truthiness of the optional `printerName` argument: `null` and the
empty string are falsy, every other string is truthy. -/
def isTruthyStr : Option String → Bool
  | none => false
  | some s => !(s == "")

/-- Target-printer resolution from server.js lines 454-456:
`printerName ? printers.find(p => p.name === printerName)
             : printers.find(p => p.isDefault) || printers[0]`. -/
def resolveTarget (printers : List PrinterInfo) (printerName : Option String) :
    Option PrinterInfo :=
  if isTruthyStr printerName then
    printers.find? (fun p => p.name == printerName.getD "")
  else
    match printers.find? (fun p => p.isDefault) with
    | some p => some p
    | none => printers.head?

/-- Embedding of `processPrintJob` (server.js lines 446-513).  A thrown
`Error` is `Except.error` carrying the message; the second component is the
service state after the call.  Rendering (`formatReceipt`) is total for
typed receipts and its output feeds only `printerManager.print`, whose
outcome `env.submit` supplies. -/
def processPrintJob (env : PrintEnv) (s : ServiceState) (receipt : Receipt)
    (printerName : Option String) : Except String PrintResponse × ServiceState :=
  match resolveTarget env.printers printerName with
  | none => (Except.error "No printers available", s)
  | some targetPrinter =>
    if targetPrinter.status != "online" then
      if s.printQueue.length < s.maxQueueSize then
        let q := s.printQueue ++ [⟨receipt, printerName, env.now⟩]
        (Except.ok
          { success := false
            message := "Printer offline, queued for printing. Queue position: "
              ++ toString q.length
            printerId := targetPrinter.name
            queued := true
            timestamp := none },
         { s with printQueue := q })
      else
        (Except.error "Printer offline and queue is full", s)
    else
      match env.submit with
      | Except.ok _ =>
        (Except.ok
          { success := true
            message := "Receipt printed successfully"
            printerId := targetPrinter.name
            queued := false
            timestamp := some env.now },
         { s with lastPrintTime := some env.now })
      | Except.error e => (Except.error e, s)

/-- Body of the `while (this.printQueue.length > 0)` loop of `processQueue`
(server.js lines 523-539), fuelled for structural recursion.  `envs i`
supplies the collaborator results of the `i`-th attempt (each iteration
re-fetches the snapshot).  Each non-breaking iteration shortens the queue
by one, so fuel equal to the entry queue length runs the loop to its real
exit (`drainLoop_fuel_stable` below). -/
def drainLoop (envs : Nat → PrintEnv) : Nat → Nat → ServiceState → ServiceState
  | 0, _, s => s
  | fuel + 1, i, s =>
    match s.printQueue with
    | [] => s
    | job :: rest =>
      let s1 : ServiceState := { s with printQueue := rest }
      let step := processPrintJob (envs i) s1 job.receipt job.printerName
      match step.1 with
      | Except.ok result =>
        if !result.success && result.queued then
          { step.2 with printQueue := job :: step.2.printQueue }
        else
          drainLoop envs fuel (i + 1) step.2
      | Except.error _ => drainLoop envs fuel (i + 1) step.2

/-- Embedding of `processQueue` (server.js lines 515-542): guard on the
`isProcessingQueue` flag and on queue emptiness, set the flag, run the
drain loop, clear the flag. -/
def processQueue (envs : Nat → PrintEnv) (s : ServiceState) : ServiceState :=
  if s.isProcessingQueue || s.printQueue.length == 0 then s
  else
    let s1 : ServiceState := { s with isProcessingQueue := true }
    let s2 := drainLoop envs s.printQueue.length 0 s1
    { s2 with isProcessingQueue := false }

/-- One `submitPrint` operation: `processPrintJob` plus the opportunistic
drain trigger `if (!this.isProcessingQueue) this.processQueue()` on the
success path (server.js lines 497-499), sequentialised. -/
def submitPrint (env : PrintEnv) (envs : Nat → PrintEnv) (s : ServiceState)
    (receipt : Receipt) (printerName : Option String) :
    Except String PrintResponse × ServiceState :=
  let r := processPrintJob env s receipt printerName
  match r.1 with
  | Except.ok result =>
    if result.success && !r.2.isProcessingQueue then (r.1, processQueue envs r.2)
    else r
  | Except.error _ => r

/-- Body of the 30-second `setInterval` callback (server.js lines 632-643):
after refreshing printers, drain the queue when it is non-empty. -/
def printerDetectionTick (envs : Nat → PrintEnv) (s : ServiceState) : ServiceState :=
  if s.printQueue.length > 0 then processQueue envs s else s

/-- Initial manager state from the `POSPrinterService` constructor
(server.js lines 46-50), with `startTime` abstracted to an instant. -/
def initialState (start : Nat) : ServiceState :=
  { printQueue := []
    maxQueueSize := 10
    isProcessingQueue := false
    lastPrintTime := none
    startTime := start }

/-- Predicate picking out the `Printed` outcome of a print attempt: the
call returned (did not throw) with `success: true`. -/
def isPrintedOutcome : Except String PrintResponse → Bool
  | Except.ok r => r.success
  | Except.error _ => false

/-! ## Receipt renderer (src/lib/receiptFormatter.js) -/

namespace EscPos

/-- ESC/POS command constants from the `ReceiptFormatter` constructor
(receiptFormatter.js lines 13-29). -/
def INIT : String := "\x1B@"

def NORMAL_TEXT : String := "\x1B!\x00"

def SMALL_TEXT : String := "\x1B!\x01"

def BOLD_ON : String := "\x1BE\x01"

def BOLD_OFF : String := "\x1BE\x00"

def CENTER_ON : String := "\x1Ba\x01"

def CENTER_OFF : String := "\x1Ba\x00"

def CUT_PAPER : String := "\x1DVA0"

def CHARSET_PC437 : String := "\x1Bt\x00"

def INTERNATIONAL_SPAIN : String := "\x1BR\x0C"

end EscPos

/-- Per-type header/footer overrides, an entry of `config.receiptTypes`;
the empty string stands for an absent (falsy) property. -/
structure ReceiptTypeConfig where
  typeName : String
  header : String
  footer : String
  deriving DecidableEq, Repr

/-- Static `config.receipt` consumed by the formatter; string fields use
`""` for an absent (falsy) JS property, mirroring `x || fallback`. -/
structure FormatterConfig where
  paperWidth : Nat
  restaurantName : String
  address : String
  phone : String
  footerMessage : String
  taxLabel : String
  dateFormat : String
  receiptTypes : List ReceiptTypeConfig
  deriving DecidableEq, Repr

/-- Locale date rendering of the JS runtime (`new Date(s)` plus
`toLocaleDateString` / `toLocaleString` / the custom year-month-day
branch), injected as pure functions of the date string. -/
structure DateRuntime where
  toLocaleDateString : String → String
  toLocaleString : String → String
  custom : String → String

/-- Repetition of a character, standing for JS `'c'.repeat(n)`. -/
def strRepeat (c : Char) (n : Nat) : String :=
  String.mk (List.replicate n c)

/-- `createSeparator` (receiptFormatter.js lines 504-506). -/
def createSeparator (cfg : FormatterConfig) (c : Char) : String :=
  strRepeat c cfg.paperWidth ++ "\n"

/-- `formatLine` (receiptFormatter.js lines 476-490): pad to the paper
width, or truncate the label when the line is too long. -/
def formatLine (cfg : FormatterConfig) (label value : String) : String :=
  let spacesNeeded : Int := (cfg.paperWidth : Int) - label.length - value.length
  if spacesNeeded > 0 then
    label ++ strRepeat ' ' spacesNeeded.toNat ++ value
  else
    let maxLabelLength : Int := (cfg.paperWidth : Int) - value.length - 1
    (label.take maxLabelLength.toNat) ++ " " ++ value

/-- `centerText` (receiptFormatter.js lines 492-502). -/
def centerText (cfg : FormatterConfig) (text : String) : String :=
  if text.length ≥ cfg.paperWidth then text.take cfg.paperWidth
  else strRepeat ' ' ((cfg.paperWidth - text.length) / 2) ++ text

/-- `formatCurrency` (receiptFormatter.js lines 508-513) on integral
amounts: `'$' + amount.toFixed(0)`. -/
def formatCurrency (amount : Int) : String :=
  "$" ++ toString amount

/-- `formatDate` (receiptFormatter.js lines 515-538): dispatch on
`config.dateFormat`, delegating to the injected locale runtime. -/
def formatDate (cfg : FormatterConfig) (rt : DateRuntime) (dateString : String) : String :=
  match cfg.dateFormat with
  | "short" => rt.toLocaleDateString dateString
  | "long" => rt.toLocaleString dateString
  | "custom" => rt.custom dateString
  | _ => rt.toLocaleString dateString

/-- JS `String.prototype.toLowerCase`, modelled as per-character
lowercasing (the receipt type tags and payment methods it is applied to
are ASCII). -/
def toLowerCase (s : String) : String :=
  String.mk (s.data.map Char.toLower)

/-- `formatPaymentMethod` (receiptFormatter.js lines 540-550). -/
def formatPaymentMethod (method : String) : String :=
  match toLowerCase method with
  | "cash" => "Efectivo"
  | "card" => "Tarjeta"
  | "transfer" => "Transferencia"
  | "credit" => "Crédito"
  | "debit" => "Débito"
  | _ => method

/-- `getDefaultHeader` (receiptFormatter.js lines 379-387). -/
def getDefaultHeader (type : String) : String :=
  match type with
  | "cash_transfer" => "TRANSFER DE EFECTIVO"
  | "shift_closure" => "CIERRE DE TURNO"
  | "shift_handoff" => "ENTREGA DE TURNO"
  | "cash_expense" => "GASTO DE CAJA"
  | _ => ""

/-- `getDefaultFooter` (receiptFormatter.js lines 390-398). -/
def getDefaultFooter (type : String) : String :=
  match type with
  | "cash_transfer" => "CONSERVAR PARA AUDITORIA"
  | "shift_closure" => "CIERRE COMPLETADO"
  | "shift_handoff" => "CONSERVAR PARA AUDITORIA"
  | "cash_expense" => "CONSERVAR PARA AUDITORIA"
  | _ => ""

/-- `getReceiptTypeHeader` (receiptFormatter.js lines 367-370). -/
def getReceiptTypeHeader (cfg : FormatterConfig) (type : String) : String :=
  match cfg.receiptTypes.find? (fun t => t.typeName == type) with
  | some tc => if tc.header != "" then tc.header else getDefaultHeader type
  | none => getDefaultHeader type

/-- `getReceiptTypeFooter` (receiptFormatter.js lines 373-376). -/
def getReceiptTypeFooter (cfg : FormatterConfig) (type : String) : String :=
  match cfg.receiptTypes.find? (fun t => t.typeName == type) with
  | some tc => if tc.footer != "" then tc.footer else getDefaultFooter type
  | none => getDefaultFooter type

/-- `formatSalesReceipt` (receiptFormatter.js lines 91-178), transcribed
section by section in source order. -/
def formatSalesReceipt (cfg : FormatterConfig) (rt : DateRuntime) (receipt : Receipt) :
    String :=
  EscPos.BOLD_ON ++ EscPos.CENTER_ON
  ++ createSeparator cfg '='
  ++ (if cfg.restaurantName != "" then cfg.restaurantName else "RESTAURANT NAME") ++ "\n"
  ++ (if cfg.address != "" then cfg.address ++ "\n" else "")
  ++ (if cfg.phone != "" then cfg.phone ++ "\n" else "")
  ++ createSeparator cfg '='
  ++ EscPos.BOLD_OFF ++ EscPos.CENTER_OFF
  ++ EscPos.NORMAL_TEXT
  ++ formatLine cfg "Pedido #:" receipt.orderNumber ++ "\n"
  ++ formatLine cfg "Fecha:" (formatDate cfg rt receipt.date) ++ "\n"
  ++ (if receipt.cashier != "" then formatLine cfg "Cajero:" receipt.cashier ++ "\n" else "")
  ++ createSeparator cfg '-'
  ++ String.join (receipt.items.map (fun item =>
       formatLine cfg (item.name ++ " x" ++ toString item.quantity)
         (formatCurrency item.total) ++ "\n"))
  ++ createSeparator cfg '-'
  ++ formatLine cfg "Subtotal:" (formatCurrency receipt.subtotal) ++ "\n"
  ++ (if receipt.tax ≠ 0 ∧ receipt.tax > 0 then
        formatLine cfg (if cfg.taxLabel != "" then cfg.taxLabel else "IVA:")
          (formatCurrency receipt.tax) ++ "\n"
      else "")
  ++ EscPos.BOLD_ON
  ++ formatLine cfg "TOTAL:" (formatCurrency receipt.total) ++ "\n"
  ++ EscPos.BOLD_OFF
  ++ EscPos.NORMAL_TEXT
  ++ createSeparator cfg '-'
  ++ formatLine cfg "Pago:" (formatPaymentMethod receipt.paymentMethod) ++ "\n"
  ++ (if receipt.paymentMethod == "cash" && receipt.tendered != 0 then
        formatLine cfg "Recibido:" (formatCurrency receipt.tendered) ++ "\n"
        ++ (if receipt.change != 0 then
              formatLine cfg "Devuelta:" (formatCurrency receipt.change) ++ "\n"
            else "")
      else "")
  ++ (if receipt.paymentMethod == "transfer" && receipt.transferReference != "" then
        formatLine cfg "Referencia:" receipt.transferReference ++ "\n"
      else "")
  ++ createSeparator cfg '='
  ++ EscPos.CENTER_ON
  ++ (if cfg.footerMessage != "" then cfg.footerMessage else "Disfruta tu buñuelísimo!") ++ "\n"
  ++ EscPos.CENTER_OFF
  ++ createSeparator cfg '='

/-- `formatCashTransferReceipt` (receiptFormatter.js lines 181-231). -/
def formatCashTransferReceipt (cfg : FormatterConfig) (rt : DateRuntime)
    (receipt : Receipt) : String :=
  EscPos.BOLD_ON ++ EscPos.CENTER_ON
  ++ createSeparator cfg '='
  ++ (if cfg.restaurantName != "" then cfg.restaurantName else "BUÑUELISIMO") ++ "\n"
  ++ getReceiptTypeHeader cfg "cash_transfer" ++ "\n"
  ++ createSeparator cfg '='
  ++ EscPos.BOLD_OFF ++ EscPos.CENTER_OFF
  ++ EscPos.NORMAL_TEXT
  ++ formatLine cfg "Transfer #:" receipt.transferId ++ "\n"
  ++ (if receipt.shiftInfo != "" then formatLine cfg "Turno:" receipt.shiftInfo ++ "\n" else "")
  ++ formatLine cfg "Fecha:" (formatDate cfg rt receipt.date) ++ "\n"
  ++ createSeparator cfg '-'
  ++ formatLine cfg "Enviado por:" receipt.senderName ++ "\n"
  ++ formatLine cfg "Firma:" "____________________" ++ "\n\n"
  ++ formatLine cfg "Recibido por:" receipt.receiverName ++ "\n"
  ++ formatLine cfg "Firma:" "____________________" ++ "\n"
  ++ createSeparator cfg '-'
  ++ EscPos.BOLD_ON ++ EscPos.CENTER_ON
  ++ "Monto Transferido:" ++ "\n"
  ++ formatCurrency receipt.amount ++ "\n"
  ++ EscPos.BOLD_OFF ++ EscPos.CENTER_OFF
  ++ createSeparator cfg '-'
  ++ (if receipt.notes != "" then formatLine cfg "Notas:" receipt.notes ++ "\n" else "")
  ++ createSeparator cfg '='
  ++ EscPos.CENTER_ON
  ++ getReceiptTypeFooter cfg "cash_transfer" ++ "\n"
  ++ EscPos.CENTER_OFF
  ++ createSeparator cfg '='

/-- `formatShiftClosureReceipt` (receiptFormatter.js lines 234-276); note
the date fields are printed verbatim, with no `formatDate` call. -/
def formatShiftClosureReceipt (cfg : FormatterConfig) (receipt : Receipt) : String :=
  EscPos.BOLD_ON ++ EscPos.CENTER_ON
  ++ createSeparator cfg '='
  ++ (if cfg.restaurantName != "" then cfg.restaurantName else "BUÑUELISIMO") ++ "\n"
  ++ getReceiptTypeHeader cfg "shift_closure" ++ "\n"
  ++ createSeparator cfg '='
  ++ EscPos.BOLD_OFF ++ EscPos.CENTER_OFF
  ++ EscPos.NORMAL_TEXT
  ++ formatLine cfg "Turno #:" receipt.shiftId ++ "\n"
  ++ formatLine cfg "Tipo:" receipt.shiftType ++ "\n"
  ++ formatLine cfg "Fecha:" receipt.shiftDate ++ "\n"
  ++ formatLine cfg "Hora:" (receipt.startTime ++ " - " ++ receipt.endTime) ++ "\n"
  ++ createSeparator cfg '-'
  ++ formatLine cfg "Cajero:" receipt.cashierName ++ "\n"
  ++ formatLine cfg "Inicio:" (formatCurrency receipt.startingCash) ++ "\n"
  ++ formatLine cfg "Ventas Turno:" (formatCurrency receipt.shiftSales) ++ "\n"
  ++ formatLine cfg "Efectivo Esperado:" (formatCurrency receipt.endingCashExpected) ++ "\n"
  ++ formatLine cfg "Efectivo Contado:" (formatCurrency receipt.endingCashCounted) ++ "\n"
  ++ formatLine cfg "Variacion:" (formatCurrency receipt.variance) ++ "\n"
  ++ createSeparator cfg '-'
  ++ formatLine cfg "Transferencias:" (formatCurrency receipt.transfersOut) ++ "\n"
  ++ createSeparator cfg '='
  ++ EscPos.CENTER_ON
  ++ getReceiptTypeFooter cfg "shift_closure" ++ "\n"
  ++ EscPos.CENTER_OFF
  ++ createSeparator cfg '='

/-- `formatShiftHandoffReceipt` (receiptFormatter.js lines 279-320). -/
def formatShiftHandoffReceipt (cfg : FormatterConfig) (rt : DateRuntime)
    (receipt : Receipt) : String :=
  EscPos.BOLD_ON ++ EscPos.CENTER_ON
  ++ createSeparator cfg '='
  ++ (if cfg.restaurantName != "" then cfg.restaurantName else "BUÑUELISIMO") ++ "\n"
  ++ getReceiptTypeHeader cfg "shift_handoff" ++ "\n"
  ++ createSeparator cfg '='
  ++ EscPos.BOLD_OFF ++ EscPos.CENTER_OFF
  ++ EscPos.NORMAL_TEXT
  ++ formatLine cfg "Entrega #:" receipt.handoffId ++ "\n"
  ++ formatLine cfg "Fecha:" (formatDate cfg rt receipt.handoffDate) ++ "\n"
  ++ createSeparator cfg '-'
  ++ formatLine cfg "Sale:" receipt.outgoingCashier ++ "\n"
  ++ formatLine cfg "Firma:" "____________________" ++ "\n\n"
  ++ formatLine cfg "Recibe:" receipt.incomingCashier ++ "\n"
  ++ formatLine cfg "Firma:" "____________________" ++ "\n"
  ++ createSeparator cfg '-'
  ++ formatLine cfg "Efectivo Entregado:" (formatCurrency receipt.handoffAmount) ++ "\n"
  ++ formatLine cfg "Efectivo Verificado:" (formatCurrency receipt.verifiedAmount) ++ "\n"
  ++ formatLine cfg "Diferencia:" (formatCurrency receipt.variance) ++ "\n"
  ++ formatLine cfg "Estado:" receipt.status ++ "\n"
  ++ createSeparator cfg '='
  ++ EscPos.CENTER_ON
  ++ getReceiptTypeFooter cfg "shift_handoff" ++ "\n"
  ++ EscPos.CENTER_OFF
  ++ createSeparator cfg '='

/-- `formatCashExpenseReceipt` (receiptFormatter.js lines 323-364). -/
def formatCashExpenseReceipt (cfg : FormatterConfig) (rt : DateRuntime)
    (receipt : Receipt) : String :=
  EscPos.BOLD_ON ++ EscPos.CENTER_ON
  ++ createSeparator cfg '='
  ++ (if cfg.restaurantName != "" then cfg.restaurantName else "BUÑUELISIMO") ++ "\n"
  ++ getReceiptTypeHeader cfg "cash_expense" ++ "\n"
  ++ createSeparator cfg '='
  ++ EscPos.BOLD_OFF ++ EscPos.CENTER_OFF
  ++ EscPos.NORMAL_TEXT
  ++ formatLine cfg "Gasto #:" receipt.cashExpenseId ++ "\n"
  ++ formatLine cfg "Comprobante:" receipt.expenseId ++ "\n"
  ++ formatLine cfg "Turno:" receipt.shiftInfo ++ "\n"
  ++ formatLine cfg "Fecha:" (formatDate cfg rt receipt.date) ++ "\n"
  ++ createSeparator cfg '-'
  ++ formatLine cfg "Cajero:" receipt.cashierName ++ "\n"
  ++ formatLine cfg "Categoría:" receipt.category ++ "\n"
  ++ formatLine cfg "Descripción:" receipt.description ++ "\n"
  ++ formatLine cfg "Monto:" (formatCurrency receipt.amount) ++ "\n"
  ++ createSeparator cfg '-'
  ++ formatLine cfg "Firma Cajero:" "________________" ++ "\n"
  ++ formatLine cfg "Fecha:" "___________________" ++ "\n"
  ++ createSeparator cfg '='
  ++ EscPos.CENTER_ON
  ++ getReceiptTypeFooter cfg "cash_expense" ++ "\n"
  ++ EscPos.CENTER_OFF
  ++ createSeparator cfg '='

/-- `formatReceipt` (receiptFormatter.js lines 32-88): printer
initialisation prefix, optional logo (`processLogo`, whose filesystem probe
is the `logoAvailable` flag), the `switch (type.toLowerCase())` dispatch
with sales fallback, trailing feeds and the cut command.  The `Bool`
component records whether the unknown-type warning was logged. -/
def formatReceipt (cfg : FormatterConfig) (rt : DateRuntime) (logoAvailable : Bool)
    (receipt : Receipt) (type : String) : String × Bool :=
  let init := EscPos.INIT ++ EscPos.CHARSET_PC437 ++ EscPos.NORMAL_TEXT
  let logoText :=
    if logoAvailable then EscPos.CENTER_ON ++ "[LOGO]" ++ EscPos.CENTER_OFF ++ "\n" else ""
  let t := toLowerCase type
  let body :=
    if t == "sales" then (formatSalesReceipt cfg rt receipt, false)
    else if t == "cash_transfer" then (formatCashTransferReceipt cfg rt receipt, false)
    else if t == "shift_closure" then (formatShiftClosureReceipt cfg receipt, false)
    else if t == "shift_handoff" then (formatShiftHandoffReceipt cfg rt receipt, false)
    else if t == "cash_expense" then (formatCashExpenseReceipt cfg rt receipt, false)
    else (formatSalesReceipt cfg rt receipt, true)
  (init ++ logoText ++ body.1 ++ "\n\n\n" ++ EscPos.CUT_PAPER, body.2)

/-- `stripEscPosCodes` (receiptFormatter.js lines 422-439): the chain of
global literal replacements, in source order. -/
def stripEscPosCodes (text : String) : String :=
  let t := text.replace "\x1B@" "[INIT]"
  let t := t.replace "\x1B!\x00" "[NORMAL]"
  let t := t.replace "\x1B!\x01" "[SMALL]"
  let t := t.replace "\x1B!\x38" "[NORMAL38]"
  let t := t.replace "\x1BE\x01" "[BOLD-ON]"
  let t := t.replace "\x1BE\x00" "[BOLD-OFF]"
  let t := t.replace "\x1Ba\x01" "[CENTER-ON]"
  let t := t.replace "\x1Ba\x00" "[CENTER-OFF]"
  let t := t.replace "\x1Bt\x00" "[PC437]"
  let t := t.replace "\x1Bt\x02" "[PC850]"
  let t := t.replace "\x1Bt\x03" "[PC860]"
  let t := t.replace "\x1Bt\x04" "[PC863]"
  let t := t.replace "\x1BR\x0C" "[SPAIN-INTL]"
  let t := t.replace "\x1DVA0" "[CUT-PAPER]"
  t.replace "\x0D" ""

/-- JS `String.prototype.includes` for a non-empty needle. -/
def strIncludes (s sub : String) : Bool :=
  (s.splitOn sub).length > 1

/-- `listEscPosCodes` (receiptFormatter.js lines 442-459). -/
def listEscPosCodes (text : String) : List String :=
  (if strIncludes text "\x1B@" then ["INIT (\\x1B@)"] else [])
  ++ (if strIncludes text "\x1B!\x00" then ["NORMAL_FONT (\\x1B!\\x00)"] else [])
  ++ (if strIncludes text "\x1B!\x01" then ["SMALL_FONT (\\x1B!\\x01)"] else [])
  ++ (if strIncludes text "\x1B!\x38" then ["NORMAL38_FONT (\\x1B!\\x38)"] else [])
  ++ (if strIncludes text "\x1BE\x01" then ["BOLD_ON (\\x1BE\\x01)"] else [])
  ++ (if strIncludes text "\x1BE\x00" then ["BOLD_OFF (\\x1BE\\x00)"] else [])
  ++ (if strIncludes text "\x1Ba\x01" then ["CENTER_ON (\\x1Ba\\x01)"] else [])
  ++ (if strIncludes text "\x1Ba\x00" then ["CENTER_OFF (\\x1Ba\\x00)"] else [])
  ++ (if strIncludes text "\x1Bt\x00" then
        ["CHARSET_PC437 (\\x1Bt\\x00) + iconv UTF-8→CP437"] else [])
  ++ (if strIncludes text "\x1Bt\x02" then ["CHARSET_PC850 (\\x1Bt\\x02)"] else [])
  ++ (if strIncludes text "\x1Bt\x03" then ["CHARSET_PC860 (\\x1Bt\\x03)"] else [])
  ++ (if strIncludes text "\x1Bt\x04" then ["CHARSET_PC863 (\\x1Bt\\x04)"] else [])
  ++ (if strIncludes text "\x1BR\x0C" then ["INTERNATIONAL_SPAIN (\\x1BR\\x0C)"] else [])
  ++ (if strIncludes text "\x1DVA0" then ["CUT_PAPER (\\x1DVA0)"] else [])

/-- Result object of `previewReceipt` (receiptFormatter.js lines 409-414). -/
structure PreviewResult where
  raw : String
  preview : String
  escPosCodes : List String
  type : String
  deriving DecidableEq, Repr

/-- `previewReceipt` (receiptFormatter.js lines 401-419): format, strip the
control codes, list them. -/
def previewReceipt (cfg : FormatterConfig) (rt : DateRuntime) (logoAvailable : Bool)
    (receipt : Receipt) (type : String) : PreviewResult :=
  let formattedReceipt := (formatReceipt cfg rt logoAvailable receipt type).1
  { raw := formattedReceipt
    preview := stripEscPosCodes formattedReceipt
    escPosCodes := listEscPosCodes formattedReceipt
    type := type }

/-! ## HTTP surface (setupRoutes, server.js) -/

/-- Result of `validateReceiptData` (server.js lines 415-444).  The
`typeof x === 'number'` checks hold by construction in the typed embedding;
the remaining truthiness checks are explicit. -/
structure ValidationResult where
  valid : Bool
  errors : List String
  deriving DecidableEq, Repr

/-- `validateReceiptData` (server.js lines 415-444), with the request body
receipt as `none` when absent.  Error messages accumulate in source
order. -/
def validateReceiptData (receipt : Option Receipt) : ValidationResult :=
  match receipt with
  | none => { valid := false, errors := ["Receipt data is required"] }
  | some r =>
    let errors : List String :=
      (if r.orderNumber == "" then ["Order number is required"] else [])
      ++ (if r.date == "" then ["Date is required"] else [])
      ++ (if r.items.isEmpty then ["Items array is required and must not be empty"] else [])
      ++ (if r.paymentMethod == "" then ["Payment method is required"] else [])
      ++ r.items.enum.filterMap (fun p =>
           if p.2.name == "" then
             some ("Item " ++ toString (p.1 + 1) ++ ": name is required")
           else none)
    { valid := errors.length == 0, errors := errors }

/-- Shape of the JSON body answered by `POST /print`, together with the
HTTP status code.  `queued` is `false` when the field is absent from the
body, and `message` carries the `message`/`error` text. -/
structure HttpPrintResponse where
  statusCode : Nat
  success : Bool
  queued : Bool
  message : String
  printerId : String
  deriving DecidableEq, Repr

/-- Handler of `POST /print` (server.js lines 334-365): validate, run
`processPrintJob(receipt)` (no printer name is forwarded), answer the
result object with status 200, or 400 on validation failure, or 500 with
the error message when the job threw. -/
def printEndpoint (env : PrintEnv) (envs : Nat → PrintEnv) (s : ServiceState)
    (receipt : Option Receipt) : HttpPrintResponse × ServiceState :=
  let validation := validateReceiptData receipt
  match receipt with
  | none =>
    ({ statusCode := 400, success := false, queued := false
       message := "Invalid receipt data: " ++ String.intercalate ", " validation.errors
       printerId := "" }, s)
  | some r =>
    if !validation.valid then
      ({ statusCode := 400, success := false, queued := false
         message := "Invalid receipt data: " ++ String.intercalate ", " validation.errors
         printerId := "" }, s)
    else
      let outcome := submitPrint env envs s r none
      match outcome.1 with
      | Except.ok result =>
        ({ statusCode := 200, success := result.success, queued := result.queued
           message := result.message, printerId := result.printerId }, outcome.2)
      | Except.error e =>
        ({ statusCode := 500, success := false, queued := false
           message := e, printerId := "" }, outcome.2)

/-- Shape of the JSON body answered by `POST /preview`. -/
structure PreviewHttpResponse where
  statusCode : Nat
  success : Bool
  preview : String
  escPosCodes : List String
  rawLength : Nat
  error : String
  deriving DecidableEq, Repr

/-- Handler of `POST /preview` (server.js lines 228-264): validate, call
`previewReceipt(receipt)` (type defaults to `'sales'`), answer preview
text, code list and raw length.  The handler reads no manager state and
performs no printer selection or submission; the state component is
returned untouched. -/
def previewEndpoint (cfg : FormatterConfig) (rt : DateRuntime) (logoAvailable : Bool)
    (s : ServiceState) (receipt : Option Receipt) : PreviewHttpResponse × ServiceState :=
  let validation := validateReceiptData receipt
  match receipt with
  | none =>
    ({ statusCode := 400, success := false, preview := "", escPosCodes := []
       rawLength := 0
       error := "Invalid receipt data: " ++ String.intercalate ", " validation.errors }, s)
  | some r =>
    if !validation.valid then
      ({ statusCode := 400, success := false, preview := "", escPosCodes := []
         rawLength := 0
         error := "Invalid receipt data: " ++ String.intercalate ", " validation.errors }, s)
    else
      let p := previewReceipt cfg rt logoAvailable r "sales"
      ({ statusCode := 200, success := true, preview := p.preview
         escPosCodes := p.escPosCodes, rawLength := p.raw.length, error := "" }, s)

/-! ## Concrete fixtures for witnesses and counterexamples -/

/-- Sample sales receipt, after the `/test-print` fixture (server.js lines
276-300) with integral amounts. -/
def testReceipt : Receipt :=
  { orderNumber := "TEST-001"
    date := "2024-01-01T00:00:00.000Z"
    cashier := "Test Cashier"
    items := [⟨"Test Item 1", 2, 10, 20⟩, ⟨"Test Item 2", 1, 5, 5⟩]
    subtotal := 25
    tax := 2
    total := 27
    paymentMethod := "cash"
    tendered := 30
    change := 2
    transferReference := ""
    transferId := ""
    shiftInfo := ""
    senderName := ""
    receiverName := ""
    amount := 0
    notes := ""
    shiftId := ""
    shiftType := ""
    shiftDate := ""
    startTime := ""
    endTime := ""
    cashierName := ""
    startingCash := 0
    shiftSales := 0
    endingCashExpected := 0
    endingCashCounted := 0
    variance := 0
    transfersOut := 0
    handoffId := ""
    handoffDate := ""
    outgoingCashier := ""
    incomingCashier := ""
    handoffAmount := 0
    verifiedAmount := 0
    status := ""
    cashExpenseId := ""
    expenseId := ""
    category := ""
    description := "" }

/-- Snapshot with a single offline default printer named Rongta. -/
def rongtaOffline : PrinterInfo :=
  { name := "Rongta", status := "offline", isDefault := true }

/-- Snapshot with a single online default printer named Rongta. -/
def rongtaOnline : PrinterInfo :=
  { name := "Rongta", status := "online", isDefault := true }

/-- Environment whose snapshot holds only the offline Rongta printer. -/
def offlineEnv : PrintEnv :=
  { printers := [rongtaOffline], submit := Except.ok (), now := 99 }

/-- Environment whose snapshot holds only the online Rongta printer and
whose submission succeeds. -/
def onlineEnv : PrintEnv :=
  { printers := [rongtaOnline], submit := Except.ok (), now := 7 }

/-- Fold of `n` submitPrint operations against the offline environment,
used to reach a populated queue from the initial state. -/
def enqueueN : Nat → ServiceState → ServiceState
  | 0, s => s
  | n + 1, s =>
    enqueueN n (submitPrint offlineEnv (fun _ => offlineEnv) s testReceipt none).2

/-- Concrete formatter configuration for witnesses. -/
def testCfg : FormatterConfig :=
  { paperWidth := 48
    restaurantName := "BUÑUELISIMO"
    address := "Calle 1 # 2-3"
    phone := "555-0100"
    footerMessage := ""
    taxLabel := ""
    dateFormat := "default"
    receiptTypes := [] }

/-- Concrete locale runtime for witnesses: date strings render as
themselves. -/
def idDateRuntime : DateRuntime :=
  { toLocaleDateString := id, toLocaleString := id, custom := id }

/-! ## Branch lemmas for `processPrintJob` -/

/-- When target resolution fails, the call throws `No printers available`
and leaves the state untouched. -/
theorem processPrintJob_no_target {env : PrintEnv} {pn : Option String}
    (s : ServiceState) (r : Receipt)
    (hres : resolveTarget env.printers pn = none) :
    processPrintJob env s r pn = (Except.error "No printers available", s) := by
  simp [processPrintJob, hres]

/-- When the resolved printer is not online and the queue has capacity, the
job is appended at the back and a queued response is returned whose message
carries the new queue length. -/
theorem processPrintJob_offline_queues {env : PrintEnv} {pn : Option String}
    {t : PrinterInfo} (s : ServiceState) (r : Receipt)
    (hres : resolveTarget env.printers pn = some t)
    (hoff : t.status ≠ "online")
    (hlen : s.printQueue.length < s.maxQueueSize) :
    processPrintJob env s r pn
      = (Except.ok
          { success := false
            message := "Printer offline, queued for printing. Queue position: "
              ++ toString (s.printQueue.length + 1)
            printerId := t.name
            queued := true
            timestamp := none },
         { s with printQueue := s.printQueue ++ [⟨r, pn, env.now⟩] }) := by
  have hb : (t.status != "online") = true := by
    simpa using hoff
  simp [processPrintJob, hres, hb, hlen]

/-- When the resolved printer is not online and the queue is at capacity,
the call throws and leaves the state untouched. -/
theorem processPrintJob_offline_full {env : PrintEnv} {pn : Option String}
    {t : PrinterInfo} (s : ServiceState) (r : Receipt)
    (hres : resolveTarget env.printers pn = some t)
    (hoff : t.status ≠ "online")
    (hlen : ¬ s.printQueue.length < s.maxQueueSize) :
    processPrintJob env s r pn = (Except.error "Printer offline and queue is full", s) := by
  have hb : (t.status != "online") = true := by
    simpa using hoff
  simp [processPrintJob, hres, hb, hlen]

/-- When the resolved printer is online and the spooler accepts the bytes,
the call returns the success response and records `lastPrintTime`. -/
theorem processPrintJob_online_ok {env : PrintEnv} {pn : Option String}
    {t : PrinterInfo} (s : ServiceState) (r : Receipt)
    (hres : resolveTarget env.printers pn = some t)
    (hon : t.status = "online")
    (hsub : env.submit = Except.ok ()) :
    processPrintJob env s r pn
      = (Except.ok
          { success := true
            message := "Receipt printed successfully"
            printerId := t.name
            queued := false
            timestamp := some env.now },
         { s with lastPrintTime := some env.now }) := by
  simp [processPrintJob, hres, hon, hsub]

/-- When the resolved printer is online and the spooler rejects, the error
propagates unchanged and the state is untouched. -/
theorem processPrintJob_online_err {env : PrintEnv} {pn : Option String}
    {t : PrinterInfo} {e : String} (s : ServiceState) (r : Receipt)
    (hres : resolveTarget env.printers pn = some t)
    (hon : t.status = "online")
    (hsub : env.submit = Except.error e) :
    processPrintJob env s r pn = (Except.error e, s) := by
  simp [processPrintJob, hres, hon, hsub]

/-- A call that threw made no state change at all: every throwing path of
`processPrintJob` leaves the state exactly as received. -/
theorem processPrintJob_error_state (env : PrintEnv) (s : ServiceState) (r : Receipt)
    (pn : Option String) (e : String)
    (h : (processPrintJob env s r pn).1 = Except.error e) :
    (processPrintJob env s r pn).2 = s := by
  cases hres : resolveTarget env.printers pn with
  | none => simp [processPrintJob, hres]
  | some t =>
    by_cases hoff : (t.status != "online") = true
    · by_cases hlen : s.printQueue.length < s.maxQueueSize
      · simp [processPrintJob, hres, hoff, hlen] at h
      · simp [processPrintJob, hres, hoff, hlen]
    · cases hsub : env.submit with
      | ok u => simp [processPrintJob, hres, hoff, hsub] at h
      | error e2 => simp [processPrintJob, hres, hoff, hsub]

/-- A call that returned a non-queued response did not touch the queue:
only the queued response path pushes a job. -/
theorem processPrintJob_ok_not_queued_state (env : PrintEnv) (s : ServiceState)
    (r : Receipt) (pn : Option String) (resp : PrintResponse)
    (h1 : (processPrintJob env s r pn).1 = Except.ok resp)
    (h2 : (!resp.success && resp.queued) = false) :
    (processPrintJob env s r pn).2.printQueue = s.printQueue := by
  cases hres : resolveTarget env.printers pn with
  | none => simp [processPrintJob, hres] at h1
  | some t =>
    by_cases hoff : (t.status != "online") = true
    · by_cases hlen : s.printQueue.length < s.maxQueueSize
      · simp [processPrintJob, hres, hoff, hlen] at h1
        rw [← h1] at h2
        simp at h2
      · simp [processPrintJob, hres, hoff, hlen] at h1
    · cases hsub : env.submit with
      | ok u => simp [processPrintJob, hres, hoff, hsub]
      | error e2 => simp [processPrintJob, hres, hoff, hsub] at h1

/-- Fuel irrelevance of the drain loop: once the fuel reaches the entry
queue length, adding more fuel does not change the result, because each
non-breaking iteration shortens the queue by exactly one.  This justifies
running the source's `while` loop with fuel equal to the queue length in
`processQueue`. -/
theorem drainLoop_fuel_stable (envs : Nat → PrintEnv) :
    ∀ (fuel i : Nat) (s : ServiceState), s.printQueue.length ≤ fuel →
      drainLoop envs (fuel + 1) i s = drainLoop envs fuel i s := by
  intro fuel
  induction fuel with
  | zero =>
    intro i s hs
    have hnil : s.printQueue = [] := List.length_eq_zero.mp (Nat.le_zero.mp hs)
    simp [drainLoop, hnil]
  | succ fuel ih =>
    intro i s hs
    cases hq : s.printQueue with
    | nil => simp [drainLoop, hq]
    | cons job rest =>
      have hrest : rest.length ≤ fuel := by
        have := hs
        rw [hq] at this
        simpa using this
      simp only [drainLoop, hq]
      cases hstep : (processPrintJob (envs i) { s with printQueue := rest }
          job.receipt job.printerName).1 with
      | ok resp =>
        by_cases hbreak : (!resp.success && resp.queued) = true
        · simp [hbreak]
        · have hb : (!resp.success && resp.queued) = false := by
            simpa using hbreak
          have hqueue := processPrintJob_ok_not_queued_state (envs i)
            { s with printQueue := rest } job.receipt job.printerName resp hstep hb
          simp only [hb, Bool.false_eq_true, if_false]
          exact ih (i + 1) _ (by simpa [hqueue] using hrest)
      | error e =>
        have hstate := processPrintJob_error_state (envs i)
          { s with printQueue := rest } job.receipt job.printerName e hstep
        exact ih (i + 1) _ (by simp [hstate, hrest])

/-! ## Claim theorems -/

/-- C1: the claim says a drain pass whose attempt comes back `Queued` puts
the oldest job back at the front so that the queue afterwards equals the
queue before the attempt.  On the code, `processPrintJob` has already
pushed a fresh copy of the job (with a new timestamp) onto the BACK of the
queue before `processQueue` unshifts the original at the front: draining
the one-job queue `[job@0]` against a still-offline printer leaves the
two-job queue `[job@0, job@99]`, duplicating the job instead of preserving
the queue. -/
theorem c1_drain_requeue_duplicates_job :
    (processQueue (fun _ => offlineEnv)
        { initialState 0 with printQueue := [⟨testReceipt, none, 0⟩] }).printQueue
      = [⟨testReceipt, none, 0⟩, ⟨testReceipt, none, 99⟩]
    ∧ (processQueue (fun _ => offlineEnv)
        { initialState 0 with printQueue := [⟨testReceipt, none, 0⟩] }).printQueue
      ≠ [⟨testReceipt, none, 0⟩] := by
  decide

/-- C2: the claim says the queue never exceeds the capacity 10.  Ten
offline submissions fill the queue to exactly 10; the next periodic drain
tick, with the printer still offline, shifts the oldest job, re-enqueues a
copy (10 < 10 fails only after the shift freed a slot) and then unshifts
the original as well, leaving 11 jobs. -/
theorem c2_queue_exceeds_capacity :
    (enqueueN 10 (initialState 0)).printQueue.length = 10
    ∧ (printerDetectionTick (fun _ => offlineEnv)
        (enqueueN 10 (initialState 0))).printQueue.length = 11 := by
  decide

/-- C3 counterexample: the claim says an unmatched `requestedPrinterName`
fails with a `PrinterNotFound` distinct from `NoPrintersAvailable`.  On the
code, requesting the absent printer `Ghost` against a non-empty snapshot
throws exactly the same `No printers available` error as the empty
snapshot does — the two failures are indistinguishable. -/
theorem c3_unknown_printer_not_distinct :
    (processPrintJob { printers := [rongtaOnline], submit := Except.ok (), now := 0 }
        (initialState 0) testReceipt (some "Ghost")).1
      = Except.error "No printers available"
    ∧ (processPrintJob { printers := [], submit := Except.ok (), now := 0 }
        (initialState 0) testReceipt (some "Ghost")).1
      = Except.error "No printers available" := by
  decide

/-- C3 (amended): a `submitPrint` call whose non-empty
`requestedPrinterName` matches no printer in the snapshot throws the same
generic `No printers available` error that an empty snapshot produces (the
code has no distinct `PrinterNotFound`), and the state — in particular the
queue — is unchanged; when no name is requested, the target falls back to
the printer flagged default, else the first snapshot entry. -/
theorem c3_unmatched_name_generic_error (env : PrintEnv) (s : ServiceState)
    (r : Receipt) (n : String) (hn : n ≠ "")
    (hmiss : env.printers.find? (fun p => p.name == n) = none) :
    processPrintJob env s r (some n) = (Except.error "No printers available", s)
    ∧ (∀ p, env.printers.find? (fun q => q.isDefault) = some p →
        resolveTarget env.printers none = some p)
    ∧ (env.printers.find? (fun q => q.isDefault) = none →
        resolveTarget env.printers none = env.printers.head?) := by
  refine ⟨?_, ?_, ?_⟩
  · have hres : resolveTarget env.printers (some n) = none := by
      simp [resolveTarget, isTruthyStr, hn, hmiss]
    exact processPrintJob_no_target s r hres
  · intro p hp
    simp [resolveTarget, isTruthyStr, hp]
  · intro hp
    simp [resolveTarget, isTruthyStr, hp]

/-- C3 witness: the amended claim at the concrete snapshot holding only
the online Rongta printer, requesting the absent name `Ghost`. -/
theorem c3_unmatched_name_generic_error_witness :
    ("Ghost" ≠ "")
    ∧ ([rongtaOnline].find? (fun p => p.name == "Ghost") = none)
    ∧ processPrintJob { printers := [rongtaOnline], submit := Except.ok (), now := 0 }
        (initialState 0) testReceipt (some "Ghost")
        = (Except.error "No printers available", initialState 0) :=
  ⟨by decide, by decide,
    (c3_unmatched_name_generic_error
      { printers := [rongtaOnline], submit := Except.ok (), now := 0 }
      (initialState 0) testReceipt "Ghost" (by decide) (by decide)).1⟩

/-- C4: when the resolved printer is offline and the queue holds fewer
than the 10-job capacity, the job is appended and the queued response
reports position `length + 1` (so the 10th enqueue reports position 10);
when the queue already holds 10 jobs the call fails with the queue-full
error and the state is unchanged. -/
theorem c4_capacity_boundary (env : PrintEnv) (s : ServiceState) (r : Receipt)
    (pn : Option String) (t : PrinterInfo)
    (hres : resolveTarget env.printers pn = some t)
    (hoff : t.status ≠ "online")
    (hcap : s.maxQueueSize = 10) :
    (s.printQueue.length < 10 →
      processPrintJob env s r pn
        = (Except.ok
            { success := false
              message := "Printer offline, queued for printing. Queue position: "
                ++ toString (s.printQueue.length + 1)
              printerId := t.name
              queued := true
              timestamp := none },
           { s with printQueue := s.printQueue ++ [⟨r, pn, env.now⟩] }))
    ∧ (s.printQueue.length = 10 →
      processPrintJob env s r pn
        = (Except.error "Printer offline and queue is full", s)) := by
  constructor
  · intro hlen
    exact processPrintJob_offline_queues s r hres hoff (by omega)
  · intro hlen
    exact processPrintJob_offline_full s r hres hoff (by omega)

/-- C4 witness: after nine offline submissions the tenth enqueue succeeds
with reported position 10, and after ten the eleventh fails with the
queue-full error. -/
theorem c4_capacity_boundary_witness :
    (processPrintJob offlineEnv (enqueueN 9 (initialState 0)) testReceipt none).1
      = Except.ok
          { success := false
            message := "Printer offline, queued for printing. Queue position: 10"
            printerId := "Rongta"
            queued := true
            timestamp := none }
    ∧ (processPrintJob offlineEnv (enqueueN 10 (initialState 0)) testReceipt none).1
      = Except.error "Printer offline and queue is full" := by
  have h9 := (c4_capacity_boundary offlineEnv (enqueueN 9 (initialState 0)) testReceipt
    none rongtaOffline (by decide) (by decide) (by decide)).1 (by decide)
  have h10 := (c4_capacity_boundary offlineEnv (enqueueN 10 (initialState 0)) testReceipt
    none rongtaOffline (by decide) (by decide) (by decide)).2 (by decide)
  refine ⟨?_, ?_⟩
  · rw [h9]
    decide
  · rw [h10]

/-- C5: when the resolved printer is online but the spooler submission
rejects with message `e`, `processPrintJob` throws exactly `e` to the
caller and the whole service state is unchanged — the job is not enqueued
and no retry happens within the call. -/
theorem c5_submit_failure_propagates (env : PrintEnv) (s : ServiceState)
    (r : Receipt) (pn : Option String) (t : PrinterInfo) (e : String)
    (hres : resolveTarget env.printers pn = some t)
    (hon : t.status = "online")
    (hsub : env.submit = Except.error e) :
    processPrintJob env s r pn = (Except.error e, s) :=
  processPrintJob_online_err s r hres hon hsub

/-- C5 witness: a concrete online snapshot whose submission rejects with
`lp: request id is missing`. -/
theorem c5_submit_failure_propagates_witness :
    processPrintJob
        { printers := [rongtaOnline], submit := Except.error "lp: request id is missing"
          now := 3 }
        (initialState 0) testReceipt none
      = (Except.error "lp: request id is missing", initialState 0) :=
  c5_submit_failure_propagates
    { printers := [rongtaOnline], submit := Except.error "lp: request id is missing"
      now := 3 }
    (initialState 0) testReceipt none rongtaOnline "lp: request id is missing"
    (by decide) (by decide) (by decide)

/-- C6: for every receipt, configuration, logo state and type string whose
lowercase form is none of the five known variants, `formatReceipt` (a
total function here, so it cannot error) produces byte-identical output to
the same call with type `sales`, and logs the unknown-type warning, while
the `sales` call itself does not warn. -/
theorem c6_unknown_type_falls_back (cfg : FormatterConfig) (rt : DateRuntime)
    (logoAvailable : Bool) (receipt : Receipt) (type : String)
    (h : toLowerCase type ∉ (["sales", "cash_transfer", "shift_closure",
      "shift_handoff", "cash_expense"] : List String)) :
    (formatReceipt cfg rt logoAvailable receipt type).1
      = (formatReceipt cfg rt logoAvailable receipt "sales").1
    ∧ (formatReceipt cfg rt logoAvailable receipt type).2 = true
    ∧ (formatReceipt cfg rt logoAvailable receipt "sales").2 = false := by
  simp only [List.mem_cons, List.not_mem_nil, or_false, not_or] at h
  obtain ⟨h1, h2, h3, h4, h5⟩ := h
  have e1 : (toLowerCase type == "sales") = false := beq_eq_false_iff_ne.mpr h1
  have e2 : (toLowerCase type == "cash_transfer") = false := beq_eq_false_iff_ne.mpr h2
  have e3 : (toLowerCase type == "shift_closure") = false := beq_eq_false_iff_ne.mpr h3
  have e4 : (toLowerCase type == "shift_handoff") = false := beq_eq_false_iff_ne.mpr h4
  have e5 : (toLowerCase type == "cash_expense") = false := beq_eq_false_iff_ne.mpr h5
  have hs : toLowerCase "sales" = "sales" := by decide
  refine ⟨?_, ?_, ?_⟩ <;>
    simp [formatReceipt, e1, e2, e3, e4, e5, hs]

/-- C6 witness: the concrete unknown tag `unknown_type_xyz` renders the
test receipt byte-identically to `sales` and raises the warning. -/
theorem c6_unknown_type_falls_back_witness :
    toLowerCase "unknown_type_xyz" ∉ (["sales", "cash_transfer", "shift_closure",
      "shift_handoff", "cash_expense"] : List String)
    ∧ (formatReceipt testCfg idDateRuntime false testReceipt "unknown_type_xyz").1
      = (formatReceipt testCfg idDateRuntime false testReceipt "sales").1
    ∧ (formatReceipt testCfg idDateRuntime false testReceipt "unknown_type_xyz").2 = true :=
  ⟨by decide,
    (c6_unknown_type_falls_back testCfg idDateRuntime false testReceipt
      "unknown_type_xyz" (by decide)).1,
    (c6_unknown_type_falls_back testCfg idDateRuntime false testReceipt
      "unknown_type_xyz" (by decide)).2.1⟩

/-- C7: a drain pass entered while the `isProcessingQueue` flag is set
returns immediately, leaving the whole state (queue included) untouched,
and every pass leaves the flag as it found it — in particular a pass that
actually ran (flag clear at entry) has cleared the flag again on exit,
whichever way the loop ended. -/
theorem c7_at_most_one_drain (envs : Nat → PrintEnv) (s : ServiceState) :
    (s.isProcessingQueue = true → processQueue envs s = s)
    ∧ (processQueue envs s).isProcessingQueue = s.isProcessingQueue := by
  constructor
  · intro h
    simp [processQueue, h]
  · by_cases h : s.isProcessingQueue
    · simp [processQueue, h]
    · by_cases hq : s.printQueue.length = 0
      · simp [processQueue, h, hq]
      · simp [processQueue, h, hq]

/-- C7 witness: entering the drain with the flag already set and a
non-empty queue changes nothing. -/
theorem c7_at_most_one_drain_witness :
    processQueue (fun _ => offlineEnv)
        { printQueue := [⟨testReceipt, none, 0⟩], maxQueueSize := 10
          isProcessingQueue := true, lastPrintTime := none, startTime := 0 }
      = { printQueue := [⟨testReceipt, none, 0⟩], maxQueueSize := 10
          isProcessingQueue := true, lastPrintTime := none, startTime := 0 } :=
  (c7_at_most_one_drain (fun _ => offlineEnv)
    { printQueue := [⟨testReceipt, none, 0⟩], maxQueueSize := 10
      isProcessingQueue := true, lastPrintTime := none, startTime := 0 }).1 rfl

/-- C8: the `/preview` handler is side-effect free and hides no state: it
returns the service state unchanged (queue, flag and `lastPrintTime`
included — it never touches `processPrintJob` or the spooler), and its
response is a pure function of the request body alone, so two calls with
identical input yield byte-identical output regardless of the service
state at call time. -/
theorem c8_preview_pure (cfg : FormatterConfig) (rt : DateRuntime)
    (logoAvailable : Bool) (s1 s2 : ServiceState) (receipt : Option Receipt) :
    (previewEndpoint cfg rt logoAvailable s1 receipt).2 = s1
    ∧ (previewEndpoint cfg rt logoAvailable s1 receipt).1
      = (previewEndpoint cfg rt logoAvailable s2 receipt).1 := by
  cases receipt with
  | none => exact ⟨rfl, rfl⟩
  | some r =>
    constructor
    · simp only [previewEndpoint]
      split <;> rfl
    · simp only [previewEndpoint]
      split <;> rfl

/-- C9: `processPrintJob` records `lastPrintTime := now` exactly on the
`Printed` outcome; on every other outcome (queued, queue-full,
no-printer, submit failure) `lastPrintTime` keeps its previous value; and
no call changes `maxQueueSize`, `isProcessingQueue` or `startTime`. -/
theorem c9_lastPrintTime_frame (env : PrintEnv) (s : ServiceState) (r : Receipt)
    (pn : Option String) :
    (isPrintedOutcome (processPrintJob env s r pn).1 = true →
      (processPrintJob env s r pn).2.lastPrintTime = some env.now)
    ∧ (isPrintedOutcome (processPrintJob env s r pn).1 = false →
      (processPrintJob env s r pn).2.lastPrintTime = s.lastPrintTime)
    ∧ (processPrintJob env s r pn).2.maxQueueSize = s.maxQueueSize
    ∧ (processPrintJob env s r pn).2.isProcessingQueue = s.isProcessingQueue
    ∧ (processPrintJob env s r pn).2.startTime = s.startTime := by
  cases hres : resolveTarget env.printers pn with
  | none => simp [processPrintJob, hres, isPrintedOutcome]
  | some t =>
    by_cases hoff : (t.status != "online") = true
    · by_cases hlen : s.printQueue.length < s.maxQueueSize
      · simp [processPrintJob, hres, hoff, hlen, isPrintedOutcome]
      · simp [processPrintJob, hres, hoff, hlen, isPrintedOutcome]
    · cases hsub : env.submit with
      | ok u => simp [processPrintJob, hres, hoff, hsub, isPrintedOutcome]
      | error e => simp [processPrintJob, hres, hoff, hsub, isPrintedOutcome]

/-- C9 witness: a successful submission against the online snapshot at
instant 7 records `lastPrintTime = 7`. -/
theorem c9_lastPrintTime_frame_witness :
    isPrintedOutcome (processPrintJob onlineEnv (initialState 0) testReceipt none).1 = true
    ∧ (processPrintJob onlineEnv (initialState 0) testReceipt none).2.lastPrintTime
      = some 7 :=
  ⟨by decide,
    (c9_lastPrintTime_frame onlineEnv (initialState 0) testReceipt none).1 (by decide)⟩

/-- C10: a valid print request whose resolved printer is offline with
queue capacity remaining is answered over HTTP with status 200 yet a body
whose `success` field is `false` alongside `queued = true` — a caller
checking only `success` treats the accepted-and-queued job as a failure. -/
theorem c10_queued_response_success_false (env : PrintEnv) (envs : Nat → PrintEnv)
    (s : ServiceState) (r : Receipt) (t : PrinterInfo)
    (hv : (validateReceiptData (some r)).valid = true)
    (hres : resolveTarget env.printers none = some t)
    (hoff : t.status ≠ "online")
    (hlen : s.printQueue.length < s.maxQueueSize) :
    (printEndpoint env envs s (some r)).1.statusCode = 200
    ∧ (printEndpoint env envs s (some r)).1.success = false
    ∧ (printEndpoint env envs s (some r)).1.queued = true := by
  have hppj := processPrintJob_offline_queues s r hres hoff hlen
  have hsp : submitPrint env envs s r none = processPrintJob env s r none := by
    simp [submitPrint, hppj]
  simp [printEndpoint, hv, hsp, hppj]

/-- C10 witness: submitting the test receipt with the Rongta printer
offline and an empty queue yields HTTP 200 with `success:false`,
`queued:true`. -/
theorem c10_queued_response_success_false_witness :
    (printEndpoint offlineEnv (fun _ => offlineEnv) (initialState 0)
        (some testReceipt)).1.statusCode = 200
    ∧ (printEndpoint offlineEnv (fun _ => offlineEnv) (initialState 0)
        (some testReceipt)).1.success = false
    ∧ (printEndpoint offlineEnv (fun _ => offlineEnv) (initialState 0)
        (some testReceipt)).1.queued = true :=
  c10_queued_response_success_false offlineEnv (fun _ => offlineEnv) (initialState 0)
    testReceipt rongtaOffline (by decide) (by decide) (by decide) (by decide)

end PrinterService
